import Mathlib

/-! Verification of the AI Scene Studio backend (`main.py`): a shallow embedding
of its image/base64 utilities, prompt builders, response decoding and HTTP
endpoint handlers, with the remote generation service modelled as an explicit
oracle function, followed by theorems about the embedded definitions. -/

namespace SceneStudio

/-! ### Base64 (Python `base64.b64encode` / `base64.b64decode`)

Bytes are modelled as natural numbers below 256. -/

/-- The 64-character standard base64 alphabet used by Python's `base64` module. -/
def b64Alphabet : List Char :=
  "ABCDEFGHIJKLMNOPQRSTUVWXYZabcdefghijklmnopqrstuvwxyz0123456789+/".data

/-- The alphabet character encoding a 6-bit value. -/
def b64Char (n : Nat) : Char := b64Alphabet.getD n 'A'

/-- The 6-bit value of an alphabet character; `none` for characters outside the
alphabet. -/
def b64Val (c : Char) : Option Nat := b64Alphabet.findIdx? (· = c)

/-- Standard base64 encoding of a byte list, with `=` padding
(Python `base64.b64encode`). -/
def b64encode : List Nat → List Char
  | [] => []
  | [a] => [b64Char (a / 4), b64Char (a % 4 * 16), '=', '=']
  | [a, b] => [b64Char (a / 4), b64Char (a % 4 * 16 + b / 16), b64Char (b % 16 * 4), '=']
  | a :: b :: c :: rest =>
      b64Char (a / 4) :: b64Char (a % 4 * 16 + b / 16) ::
        b64Char (b % 16 * 4 + c / 64) :: b64Char (c % 64) :: b64encode rest

/-- Base64 decoding of a character list: groups of four alphabet characters,
with `=` padding allowed in the final group only. Well-formed input yields
`some` bytes; malformed input yields `none`, standing for the `binascii.Error`
that Python's `base64.b64decode` raises. -/
def b64decodeChars : List Char → Option (List Nat)
  | [] => some []
  | c1 :: c2 :: c3 :: c4 :: rest =>
      match b64Val c1, b64Val c2 with
      | some v1, some v2 =>
          if c3 = '=' then
            if c4 = '=' ∧ rest = [] then some [v1 * 4 + v2 / 16] else none
          else
            match b64Val c3 with
            | some v3 =>
                if c4 = '=' then
                  if rest = [] then some [v1 * 4 + v2 / 16, v2 % 16 * 16 + v3 / 4] else none
                else
                  match b64Val c4 with
                  | some v4 =>
                      (b64decodeChars rest).map
                        (fun bs => (v1 * 4 + v2 / 16) :: (v2 % 16 * 16 + v3 / 4) ::
                          (v3 % 4 * 64 + v4) :: bs)
                  | none => none
            | none => none
      | _, _ => none
  | _ => none

/-- Everything after the first comma (Python `s.split(",", 1)[1]`). -/
def dropThroughComma : List Char → List Char
  | [] => []
  | c :: rest => if c = ',' then rest else dropThroughComma rest

/-- Embedding of `b64_to_bytes` (main.py lines 27-30): when the input contains a
comma, strip everything up to and including the first one, then base64-decode. -/
def b64_to_bytes (s : String) : Option (List Nat) :=
  b64decodeChars (if ',' ∈ s.data then dropThroughComma s.data else s.data)

/-- Embedding of `bytes_to_b64` (main.py lines 32-33). -/
def bytes_to_b64 (b : List Nat) : String :=
  "data:image/png;base64," ++ String.mk (b64encode b)

/-! ### Round-trip lemmas for base64 -/

theorem b64Val_b64Char : ∀ n < 64, b64Val (b64Char n) = some n := by decide

theorem b64Char_ne_pad : ∀ n < 64, b64Char n ≠ '=' := by decide

theorem b64decodeChars_b64encode (b : List Nat) (hb : ∀ x ∈ b, x < 256) :
    b64decodeChars (b64encode b) = some b := by
  induction b using b64encode.induct with
  | case1 => simp [b64encode, b64decodeChars]
  | case2 a =>
      have ha : a < 256 := hb a (by simp)
      simp [b64encode, b64decodeChars,
        b64Val_b64Char (a / 4) (by omega),
        b64Val_b64Char (a % 4 * 16) (by omega)]
      omega
  | case3 a b =>
      have ha : a < 256 := hb a (by simp)
      have hbb : b < 256 := hb b (by simp)
      simp [b64encode, b64decodeChars,
        b64Val_b64Char (a / 4) (by omega),
        b64Val_b64Char (a % 4 * 16 + b / 16) (by omega),
        b64Val_b64Char (b % 16 * 4) (by omega),
        if_neg (b64Char_ne_pad (b % 16 * 4) (by omega))]
      constructor <;> omega
  | case4 a b c rest ih =>
      have ha : a < 256 := hb a (by simp)
      have hbb : b < 256 := hb b (by simp)
      have hc : c < 256 := hb c (by simp)
      have hrest : ∀ x ∈ rest, x < 256 := fun x hx => hb x (by simp [hx])
      simp [b64encode, b64decodeChars,
        b64Val_b64Char (a / 4) (by omega),
        b64Val_b64Char (a % 4 * 16 + b / 16) (by omega),
        b64Val_b64Char (b % 16 * 4 + c / 64) (by omega),
        b64Val_b64Char (c % 64) (by omega),
        if_neg (b64Char_ne_pad (b % 16 * 4 + c / 64) (by omega)),
        if_neg (b64Char_ne_pad (c % 64) (by omega)),
        ih hrest]
      refine ⟨by omega, by omega, by omega⟩

theorem dropThroughComma_png_head (enc : List Char) :
    dropThroughComma ("data:image/png;base64,".data ++ enc) = enc := by
  have h : "data:image/png;base64,".data =
      ['d', 'a', 't', 'a', ':', 'i', 'm', 'a', 'g', 'e', '/', 'p', 'n', 'g', ';',
       'b', 'a', 's', 'e', '6', '4', ','] := rfl
  rw [h]
  simp [dropThroughComma]

/-! ### PIL image layer

`PIL.Image` is an external library; it is modelled symbolically: an image
records its colour mode and its pixel payload, `Image.open` wraps the source
bytes, `convert` replaces the mode, and saving as PNG is an injective encoding
of mode and payload behind the real eight-byte PNG signature. -/

structure PILImage where
  mode : String
  payload : List Nat
deriving DecidableEq

/-- The eight-byte PNG file signature. -/
def pngSignature : List Nat := [137, 80, 78, 71, 13, 10, 26, 10]

/-- Length-prefixed encoding of a mode string into bytes. -/
def encodeMode (m : String) : List Nat := m.length :: m.data.map Char.toNat

/-- Model of `PIL.Image.open` on raw source bytes. -/
def imageOpen (b : List Nat) : PILImage := ⟨"native", b⟩

/-- Model of `PIL.Image.convert`: replace the colour mode. -/
def PILImage.convert (img : PILImage) (m : String) : PILImage := ⟨m, img.payload⟩

/-- Model of saving an image as PNG bytes. -/
def savePNG (img : PILImage) : List Nat :=
  pngSignature ++ encodeMode img.mode ++ img.payload

/-- Embedding of `to_png` (main.py lines 35-38): convert to RGBA, save as PNG. -/
def to_png (img : PILImage) : List Nat := savePNG (img.convert "RGBA")

/-- The colour mode recorded in saved PNG bytes, when well-formed. -/
def pngMode (b : List Nat) : Option String :=
  if b.take 8 = pngSignature then
    match b.drop 8 with
    | [] => none
    | n :: rest =>
        if n ≤ rest.length then some (String.mk ((rest.take n).map Char.ofNat)) else none
  else none

/-! ### Remote responses and `extract_img` -/

/-- Inline data carried by a response part: the `inline_data.data` attribute is
either raw `bytes` or a base64 `str`. -/
inductive BData
  | raw (b : List Nat)
  | b64 (s : String)
deriving DecidableEq

/-- A response part; `none` models a part with no inline data (missing
`inline_data`, or a `data` attribute that is neither `bytes` nor `str`). -/
structure Part where
  inline_data : Option BData
deriving DecidableEq

/-- A candidate's content: its list of parts. -/
structure Content where
  parts : List Part
deriving DecidableEq

/-- A response candidate; `none` models missing content or missing parts. -/
structure Candidate where
  content : Option Content
deriving DecidableEq

/-- A remote response: candidate list and optional text attribute. -/
structure Resp where
  candidates : List Candidate
  text : Option String
deriving DecidableEq

/-- All parts of a response, in candidate order then part order (the nested
loops of `extract_img`); a missing `content` contributes no parts. -/
def allParts (resp : Resp) : List Part :=
  (resp.candidates.map fun c =>
    match c.content with
    | some ct => ct.parts
    | none => []).flatten

/-- The first inline data found, scanning parts in order. -/
def firstInline : List Part → Option BData
  | [] => none
  | p :: rest =>
      match p.inline_data with
      | some d => some d
      | none => firstInline rest

/-- An exception raised inside `extract_img`: the explicit no-image `Exception`,
or the `binascii.Error` raised by `base64.b64decode` on a malformed string. -/
inductive ExtractErr
  | genError (msg : String)
  | b64Error
deriving DecidableEq

/-- Embedding of `extract_img` (main.py lines 40-49): return the first inline
image (raw bytes, or a base64 string to decode) re-encoded through `to_png`;
with no inline data anywhere, raise an exception whose message carries the
first 300 characters of the response text. -/
def extract_img (resp : Resp) (model : String) : Except ExtractErr (List Nat) :=
  match firstInline (allParts resp) with
  | some (.raw b) => .ok (to_png (imageOpen b))
  | some (.b64 s) =>
      match b64decodeChars s.data with
      | some b => .ok (to_png (imageOpen b))
      | none => .error .b64Error
  | none =>
      .error (.genError ("No image in response from [" ++ model ++ "]. Got: " ++
        (resp.text.getD "").take 300))

/-! ### Model detection -/

def IMAGE_MODELS : List String := ["gemini-2.5-flash-image", "gemini-2.0-flash-exp"]

def TEXT_MODELS : List String := ["gemini-2.0-flash", "gemini-2.0-flash-lite", "gemini-1.5-flash"]

/-- Last component of a slash-separated name (`m.name.split("/")[-1]`). -/
def lastComponent (s : String) : String := (s.splitOn "/").getLastD s

/-- The set comprehension over `client.models.list()`: the last name component
of every listed model whose name is truthy (neither `None` nor empty). -/
def listedNames (ms : List (Option String)) : List String :=
  ((ms.filterMap id).filter fun s => ¬ s = "").map lastComponent

/-- Embedding of `detect_models` (main.py lines 51-58). The `client.models.list()`
call is an oracle argument: `.error` models the call raising (caught by the
`except`, giving the hardcoded defaults), `.ok ms` a listing whose entries carry
an optional name; falsy names (`None` or empty) are skipped. -/
def detect_models (listResult : Except String (List (Option String))) : String × String :=
  match listResult with
  | .error _ => (IMAGE_MODELS.headD "", TEXT_MODELS.headD "")
  | .ok ms =>
      ((IMAGE_MODELS.filter ((listedNames ms).contains ·)).headD (IMAGE_MODELS.headD ""),
       (TEXT_MODELS.filter ((listedNames ms).contains ·)).headD (TEXT_MODELS.headD ""))

/-! ### Prompt builders -/

def NO_CHANGE : String :=
  "Keep everything else in the image exactly unchanged — same composition, same subjects."

def STYLE_GUARD : String := "No watermarks, no text overlays, no logos. High quality output."

def CHESS_BG : String :=
  "Render on a transparent/checkerboard background (like Photoshop) — no solid color bg."

/-- Python's `s or default` idiom on strings: the default when `s` is empty. -/
def orDefault (s d : String) : String := if s = "" then d else s

/-- Embedding of `layer_prompt` (main.py lines 61-80). -/
def layer_prompt (kind main obj bg lt mood : String) : String :=
  let base := "Scene: " ++ main ++ "\nMood: " ++ orDefault mood "neutral" ++ "\n"
  if kind = "object" then
    base ++ "Generate ONLY the isolated main subject/object.\n" ++
      "Object: " ++ orDefault obj "infer from scene" ++ "\n" ++
      "Lighting: " ++ orDefault lt "neutral studio" ++ "\n" ++
      CHESS_BG ++ "\n" ++ STYLE_GUARD
  else if kind = "light" then
    base ++ "Generate ONLY a lighting/glow/atmosphere effects layer.\n" ++
      "Lighting: " ++ orDefault lt "cinematic volumetric light, soft bloom" ++ "\n" ++
      "Minimal geometry — light effects only.\n" ++ CHESS_BG ++ "\n" ++ STYLE_GUARD
  else if kind = "background" then
    base ++ "Generate ONLY the background environment. No main subject in it.\n" ++
      "Background: " ++ orDefault bg "infer fitting background from scene" ++ "\n" ++
      "Lighting: " ++ orDefault lt "match the mood" ++ "\n" ++ STYLE_GUARD
  else if kind = "combo" then
    "Render the full scene as one unified image:\n" ++
      "Scene: " ++ main ++ "\nMain object: " ++ orDefault obj "infer" ++ "\n" ++
      "Background: " ++ orDefault bg "infer" ++ "\nLighting: " ++ orDefault lt "infer" ++
      "\nMood: " ++ mood ++ "\n" ++ STYLE_GUARD
  else main

/-! ### Fence stripping and JSON decomposition -/

/-- The backtick character. -/
def btick : Char := Char.ofNat 96

/-- Lowercase ASCII letter test, the `[a-z]` regex class. -/
def isLowerAZ (c : Char) : Bool := 'a' ≤ c && c ≤ 'z'

/-- Does the character list start with three backticks? -/
def startsFence : List Char → Bool
  | c1 :: c2 :: c3 :: _ => c1 = btick && c2 = btick && c3 = btick
  | _ => false

theorem length_dropWhile_le (p : Char → Bool) (l : List Char) :
    (l.dropWhile p).length ≤ l.length := by
  induction l with
  | nil => simp
  | cons c cs ih =>
      by_cases h : p c
      · simp [List.dropWhile_cons, h]; omega
      · simp [List.dropWhile_cons, h]

/-- Left-to-right pass of the `re.sub` removing each three-backtick fence with
its trailing lowercase run; other characters are kept. -/
def stripFenceRuns : List Char → List Char
  | [] => []
  | c :: rest =>
      if startsFence (c :: rest) then
        stripFenceRuns ((rest.drop 2).dropWhile isLowerAZ)
      else
        c :: stripFenceRuns rest
  termination_by l => l.length
  decreasing_by
  · have h1 : ((rest.drop 2).dropWhile isLowerAZ).length ≤ (rest.drop 2).length :=
      length_dropWhile_le _ _
    have h2 : (rest.drop 2).length ≤ rest.length := by
      simp [List.length_drop]
    simp only [List.length_cons]
    omega
  · simp

/-- Left-to-right pass of `.replace` removing every remaining three-backtick run. -/
def removeFences : List Char → List Char
  | [] => []
  | c :: rest =>
      if startsFence (c :: rest) then removeFences (rest.drop 2)
      else c :: removeFences rest
  termination_by l => l.length
  decreasing_by
  · have h2 : (rest.drop 2).length ≤ rest.length := by simp [List.length_drop]
    simp only [List.length_cons]
    omega
  · simp

/-- Embedding of the text clean-up in `decompose_sync` (main.py line 91):
remove code fences with their language tags, remove stray fences, trim
surrounding whitespace. -/
def stripFences (s : String) : String :=
  (String.mk (removeFences (stripFenceRuns s.data))).trim

/-- JSON values, the possible results of Python's `json.loads`. An object
models the parsed `dict`, so its keys are unique. -/
inductive JVal
  | jstr (s : String)
  | jnum (n : Int)
  | jbool (b : Bool)
  | jnull
  | jarr (xs : List JVal)
  | jobj (fields : List (String × JVal))

/-- Python `repr()`-style rendering of a JSON value, used for values nested in
containers (string escaping subtleties elided; no claim exercises this). -/
def pyRepr : JVal → String
  | .jstr s => "'" ++ s ++ "'"
  | .jnum n => toString n
  | .jbool true => "True"
  | .jbool false => "False"
  | .jnull => "None"
  | .jarr xs =>
      "[" ++ String.intercalate ", " (xs.attach.map fun x => pyRepr x.1) ++ "]"
  | .jobj fs =>
      "\x7b" ++ String.intercalate ", "
        (fs.attach.map fun kv => "'" ++ kv.1.1 ++ "': " ++ pyRepr kv.1.2) ++ "\x7d"
decreasing_by
  · simp_wf
    have h := List.sizeOf_lt_of_mem x.2
    omega
  · simp_wf
    obtain ⟨⟨k, v⟩, hkv⟩ := kv
    have h := List.sizeOf_lt_of_mem hkv
    simp at h ⊢
    omega

/-- Python `str()` of a JSON value, as applied to `j.get(k, "")`: a string maps
to itself, other values render as their `repr`. -/
def pyStr : JVal → String
  | .jstr s => s
  | v => pyRepr v

/-- Python `j.get(k, "")` on the parsed object. -/
def jget (fs : List (String × JVal)) (k : String) : JVal :=
  match fs.lookup k with
  | some v => v
  | none => .jstr ""

/-! ### The remote service oracle and the endpoint handlers

`genai.Client.models.generate_content` is modelled as an explicit oracle
function from the request's model name, contents and config to either a raised
exception message (`.error`) or a response (`.ok`).  `json.loads` is likewise
an oracle from text to an optional JSON value, `none` modelling a raised
`JSONDecodeError`. -/

/-- A part of the `contents` argument of a remote call. -/
inductive ReqPart
  | bytesPart (data : List Nat) (mime : String)
  | textPart (t : String)
deriving DecidableEq

/-- The `contents` argument of a remote call: a bare string or a part list. -/
inductive ReqContents
  | str (s : String)
  | parts (ps : List ReqPart)
deriving DecidableEq

/-- The `config` argument of a remote call: `CFG_IMG` (text and image response
modalities), a text temperature in hundredths (0.2 and 0.35 in the source), or
a maximum output token count. -/
inductive GenConfig
  | imageCfg
  | textTemp (centi : Nat)
  | maxTokens (n : Nat)
deriving DecidableEq

/-- The remote `generate_content` service as an oracle. -/
abbrev RemoteCall : Type := String → ReqContents → GenConfig → Except String Resp

/-- The `json.loads` oracle. -/
abbrev JsonLoads : Type := String → Option JVal

/-- The fixed instruction text prepended to the scene prompt by `decompose_sync`. -/
def decContents (prompt : String) : String :=
  "Decompose this scene prompt into JSON with keys: object, background, light, mood. " ++
    "Short concrete values. No markdown, no code fences.\n\nPROMPT: " ++ prompt

/-- The four decomposed scene attributes. -/
structure Dec4 where
  object : String
  background : String
  light : String
  mood : String
deriving DecidableEq

/-- Embedding of `decompose_sync` (main.py lines 82-96): call the text model,
strip fences from the returned text, parse it as JSON and read the four keys;
any parse failure (including a non-object result, where `j.get` raises) is
caught and yields four empty strings.  An exception from the remote call itself
propagates to the calling endpoint. -/
def decompose_sync (loads : JsonLoads) (call : RemoteCall)
    (text_model prompt : String) : Except String Dec4 :=
  match call text_model (.str (decContents prompt)) (.textTemp 20) with
  | .error e => .error e
  | .ok resp =>
      let txt := stripFences (resp.text.getD "")
      .ok (match loads txt with
        | some (.jobj fs) =>
            ⟨pyStr (jget fs "object"), pyStr (jget fs "background"),
             pyStr (jget fs "light"), pyStr (jget fs "mood")⟩
        | _ => ⟨"", "", "", ""⟩)

/-- An HTTP error response (`HTTPException(code, msg)`). -/
structure HTTPError where
  code : Nat
  msg : String
deriving DecidableEq

/-- The `str(e)` text of an exception raised inside `extract_img`. The malformed
base64 case carries the `binascii.Error` wording; no claim depends on it. -/
def errText : ExtractErr → String
  | .genError m => m
  | .b64Error => "Incorrect padding"

/-- Request body of `POST /api/generate-layer`. -/
structure GenLayerReq where
  apiKey : String
  imageModel : String
  textModel : String
  layerType : String
  mainPrompt : String
  objectPrompt : String
  backgroundPrompt : String
  lightPrompt : String
  moodPrompt : String
  customPrompt : String
deriving DecidableEq

/-- The instruction text `gen_layer` sends (main.py lines 176-182): the raw
custom prompt when `layerType == "custom"`, otherwise `layer_prompt`. -/
def gen_layer_prompt (req : GenLayerReq) : String :=
  if req.layerType = "custom" then req.customPrompt
  else layer_prompt req.layerType req.mainPrompt req.objectPrompt
    req.backgroundPrompt req.lightPrompt req.moodPrompt

/-- Embedding of the `gen_layer` endpoint (main.py lines 172-186); the result
is the `image` field of the JSON body. -/
def gen_layer (call : RemoteCall) (req : GenLayerReq) : Except HTTPError String :=
  match call req.imageModel (.str (gen_layer_prompt req)) .imageCfg with
  | .error e => .error ⟨500, e⟩
  | .ok resp =>
      match extract_img resp req.imageModel with
      | .ok b => .ok (bytes_to_b64 b)
      | .error e => .error ⟨500, errText e⟩

/-- Request body of `POST /api/generate-all`. -/
structure GenAllReq where
  apiKey : String
  imageModel : String
  textModel : String
  mainPrompt : String
  objectPrompt : String
  backgroundPrompt : String
  lightPrompt : String
  moodPrompt : String
deriving DecidableEq

/-- One remote request: the model and contents passed to `generate_content`. -/
abbrev TraceItem : Type := String × ReqContents

/-- The four layer kinds, in the order `gen_all` iterates them. -/
def layerKinds : List String := ["object", "background", "light", "combo"]

/-- The decomposed attributes `gen_all` computes (main.py lines 193-202):
auto-decompose when both sub-prompts are empty, otherwise use the supplied
values directly. -/
def gen_all_dec (loads : JsonLoads) (call : RemoteCall) (req : GenAllReq) :
    Except String Dec4 :=
  if req.objectPrompt = "" ∧ req.backgroundPrompt = "" then
    decompose_sync loads call req.textModel req.mainPrompt
  else
    .ok ⟨req.objectPrompt, req.backgroundPrompt, req.lightPrompt, req.moodPrompt⟩

/-- The remote requests issued by `gen_all`'s decomposition step: exactly the
one decomposition call when both sub-prompts are empty, none otherwise. -/
def gen_all_dec_trace (req : GenAllReq) : List TraceItem :=
  if req.objectPrompt = "" ∧ req.backgroundPrompt = "" then
    [(req.textModel, .str (decContents req.mainPrompt))]
  else []

/-- The sequential layer loop of `gen_all` (main.py lines 203-208): for each
kind in order, build the prompt, call the model, extract and re-encode the
image; the first raised exception aborts the loop (the `try` block wraps the
whole loop). Returns the ordered `(kind, image)` results or the error, paired
with the trace of remote requests actually issued. -/
def gen_all_layers (call : RemoteCall) (req : GenAllReq) (dec : Dec4) :
    List String → Except HTTPError (List (String × String)) × List TraceItem
  | [] => (.ok [], [])
  | kind :: rest =>
      let p := layer_prompt kind req.mainPrompt dec.object dec.background dec.light dec.mood
      match call req.imageModel (.str p) .imageCfg with
      | .error e => (.error ⟨500, e⟩, [(req.imageModel, .str p)])
      | .ok resp =>
          match extract_img resp req.imageModel with
          | .error e => (.error ⟨500, errText e⟩, [(req.imageModel, .str p)])
          | .ok b =>
              let rt := gen_all_layers call req dec rest
              (rt.1.map fun rs => (kind, bytes_to_b64 b) :: rs,
               (req.imageModel, .str p) :: rt.2)

/-- Response body of `POST /api/generate-all`: the four layers (an association
list in insertion order, as a Python dict preserves it) and the decomposed
attributes. -/
structure GenAllResp where
  layers : List (String × String)
  decomposed : Dec4
deriving DecidableEq

/-- Embedding of the `gen_all` endpoint (main.py lines 189-211), additionally
returning the trace of remote requests issued. -/
def gen_allT (loads : JsonLoads) (call : RemoteCall) (req : GenAllReq) :
    Except HTTPError GenAllResp × List TraceItem :=
  match gen_all_dec loads call req with
  | .error e => (.error ⟨500, e⟩, gen_all_dec_trace req)
  | .ok dec =>
      match gen_all_layers call req dec layerKinds with
      | (.ok layers, t) => (.ok ⟨layers, dec⟩, gen_all_dec_trace req ++ t)
      | (.error e, t) => (.error e, gen_all_dec_trace req ++ t)

/-- The `gen_all` endpoint's HTTP result alone. -/
def gen_all (loads : JsonLoads) (call : RemoteCall) (req : GenAllReq) :
    Except HTTPError GenAllResp :=
  (gen_allT loads call req).1

/-- Request body of `POST /api/edit`. -/
structure EditReq where
  apiKey : String
  imageModel : String
  image : String
  instruction : String
deriving DecidableEq

/-- Embedding of the `edit` endpoint (main.py lines 214-228): decode the source
image, send it with the instruction plus the fixed guard clause, decode the
returned image. Any raised exception becomes an HTTP 500. -/
def edit (call : RemoteCall) (req : EditReq) : Except HTTPError String :=
  match b64_to_bytes req.image with
  | none => .error ⟨500, "Incorrect padding"⟩
  | some bs =>
      match call req.imageModel
          (.parts [.bytesPart bs "image/png",
                   .textPart (req.instruction ++ "\n" ++ NO_CHANGE)]) .imageCfg with
      | .error e => .error ⟨500, e⟩
      | .ok resp =>
          match extract_img resp req.imageModel with
          | .ok b => .ok (bytes_to_b64 b)
          | .error e => .error ⟨500, errText e⟩

/-- Request body of `POST /api/merge`. -/
structure MergeReq where
  apiKey : String
  imageModel : String
  fgImage : String
  bgImage : String
  fgName : String
  bgName : String
  hint : String
deriving DecidableEq

/-- The compositing instruction `merge` builds (main.py lines 235-243). -/
def merge_instr (req : MergeReq) : String :=
  let extra := if ¬ req.hint.trim = "" then "\nExtra blending note: " ++ req.hint else ""
  "Composite these two layers into one cohesive image:\n" ++
    "  • Image 1 = FOREGROUND (top layer): " ++ req.fgName ++ "\n" ++
    "  • Image 2 = BACKGROUND (bottom layer): " ++ req.bgName ++ "\n\n" ++
    "Place foreground elements naturally in front of the background. " ++
    "Match lighting, blend edges seamlessly. One unified final image. " ++
    "No new objects added. No watermarks." ++ extra

/-- Embedding of the `merge` endpoint (main.py lines 231-255): decode both
images, send them (foreground first) with the compositing instruction, decode
the returned image. Any raised exception becomes an HTTP 500. -/
def merge (call : RemoteCall) (req : MergeReq) : Except HTTPError String :=
  match b64_to_bytes req.fgImage with
  | none => .error ⟨500, "Incorrect padding"⟩
  | some fg =>
      match b64_to_bytes req.bgImage with
      | none => .error ⟨500, "Incorrect padding"⟩
      | some bg =>
          match call req.imageModel
              (.parts [.bytesPart fg "image/png", .bytesPart bg "image/png",
                       .textPart (merge_instr req)]) .imageCfg with
          | .error e => .error ⟨500, e⟩
          | .ok resp =>
              match extract_img resp req.imageModel with
              | .ok b => .ok (bytes_to_b64 b)
              | .error e => .error ⟨500, errText e⟩

/-- Request body of `POST /api/improve`. -/
structure ImproveReq where
  apiKey : String
  textModel : String
  text : String
  target : String
deriving DecidableEq

/-- Embedding of the `improve` endpoint (main.py lines 258-273): ask the text
model to rewrite the prompt, return the trimmed text. -/
def improve (call : RemoteCall) (req : ImproveReq) : Except HTTPError String :=
  match call req.textModel
      (.str ("Improve this image editing/generation prompt for target '" ++ req.target ++
        "'. Keep the intent, make it more specific and visually descriptive. " ++
        "Output ONLY the improved prompt text, nothing else.\n\nPROMPT: " ++ req.text))
      (.textTemp 35) with
  | .error e => .error ⟨500, e⟩
  | .ok resp => .ok ((resp.text.getD "").trim)

/-- Request body of `POST /api/decompose`. -/
structure DecomposeReq where
  apiKey : String
  textModel : String
  mainPrompt : String
deriving DecidableEq

/-- Embedding of the `decompose` endpoint (main.py lines 276-282). -/
def decompose (loads : JsonLoads) (call : RemoteCall) (req : DecomposeReq) :
    Except HTTPError Dec4 :=
  match decompose_sync loads call req.textModel req.mainPrompt with
  | .ok d => .ok d
  | .error e => .error ⟨500, e⟩

/-- Request body of `POST /api/connect`. -/
structure ConnectReq where
  apiKey : String
deriving DecidableEq

/-- Response body of `POST /api/connect`. -/
structure ConnectResp where
  imageModel : String
  textModel : String
deriving DecidableEq

/-- Embedding of the `connect` endpoint (main.py lines 156-169): detect models
(`detect_models` swallows its own failures), sanity-test the key with a tiny
text call, and surface any raised exception as an HTTP 400. -/
def connect (listResult : Except String (List (Option String))) (call : RemoteCall)
    (_req : ConnectReq) : Except HTTPError ConnectResp :=
  let mt := detect_models listResult
  match call mt.2 (.str "Reply with just the word OK.") (.maxTokens 5) with
  | .ok _ => .ok ⟨mt.1, mt.2⟩
  | .error e => .error ⟨400, e⟩

/-! ### Theorems for the claims -/

/-- C6: base64 handling round-trips. The encoder prefixes exactly
"data:image/png;base64,", decoding the encoder's output returns the original
bytes, and an input containing no comma (hence no data-URI marker) is decoded
as-is, with nothing stripped. -/
theorem c6_base64_round_trip (b : List Nat) (hb : ∀ x ∈ b, x < 256) :
    bytes_to_b64 b = "data:image/png;base64," ++ String.mk (b64encode b) ∧
    b64_to_bytes (bytes_to_b64 b) = some b ∧
    (∀ s : String, ',' ∉ s.data → b64_to_bytes s = b64decodeChars s.data) := by
  refine ⟨rfl, ?_, ?_⟩
  · have hdata : (bytes_to_b64 b).data = "data:image/png;base64,".data ++ b64encode b := by
      simp [bytes_to_b64, String.data_append]
    have hmem : ',' ∈ "data:image/png;base64,".data ++ b64encode b :=
      List.mem_append_left _ (by decide)
    unfold b64_to_bytes
    rw [hdata, if_pos hmem, dropThroughComma_png_head]
    exact b64decodeChars_b64encode b hb
  · intro s hs
    unfold b64_to_bytes
    rw [if_neg hs]

theorem c6_base64_round_trip_witness :
    (∀ x ∈ [104, 105], x < 256) ∧
    (bytes_to_b64 [104, 105] = "data:image/png;base64," ++ String.mk (b64encode [104, 105]) ∧
     b64_to_bytes (bytes_to_b64 [104, 105]) = some [104, 105] ∧
     (∀ s : String, ',' ∉ s.data → b64_to_bytes s = b64decodeChars s.data)) :=
  ⟨by decide, c6_base64_round_trip [104, 105] (by decide)⟩

theorem firstInline_eq_none (ps : List Part) (h : ∀ p ∈ ps, p.inline_data = none) :
    firstInline ps = none := by
  induction ps with
  | nil => rfl
  | cons p rest ih =>
      have hp := h p (by simp)
      simp only [firstInline, hp]
      exact ih fun q hq => h q (by simp [hq])

/-- C2: a remote response none of whose parts carries inline image data makes
`extract_img` raise the generation error, whose message carries the first 300
characters of whatever text the response contained. -/
theorem c2_no_image_error (resp : Resp) (model : String)
    (h : ∀ p ∈ allParts resp, p.inline_data = none) :
    extract_img resp model =
      .error (.genError ("No image in response from [" ++ model ++ "]. Got: " ++
        (resp.text.getD "").take 300)) := by
  unfold extract_img
  rw [firstInline_eq_none _ h]

theorem c2_no_image_error_witness :
    (∀ p ∈ allParts ⟨[⟨some ⟨[⟨none⟩]⟩⟩, ⟨none⟩], some "model said no"⟩,
        p.inline_data = none) ∧
    extract_img ⟨[⟨some ⟨[⟨none⟩]⟩⟩, ⟨none⟩], some "model said no"⟩ "m" =
      .error (.genError ("No image in response from [" ++ "m" ++ "]. Got: " ++
        ((some "model said no").getD "").take 300)) :=
  ⟨by decide, c2_no_image_error ⟨[⟨some ⟨[⟨none⟩]⟩⟩, ⟨none⟩], some "model said no"⟩ "m"
    (by decide)⟩

theorem pngMode_to_png (img : PILImage) : pngMode (to_png img) = some "RGBA" := by
  show (if 4 ≤ (82 :: 71 :: 66 :: 65 :: img.payload).length then
      some (String.mk (List.map Char.ofNat (List.take 4 (82 :: 71 :: 66 :: 65 :: img.payload))))
    else none) = some "RGBA"
  rw [if_pos (by simp : (4 : Nat) ≤ (82 :: 71 :: 66 :: 65 :: img.payload).length)]
  rfl

theorem firstInline_at (ps : List Part) (i : Nat) (p : Part) (d : BData)
    (hp : ps.get? i = some p) (hd : p.inline_data = some d)
    (hbefore : ∀ j, j < i → ∀ q, ps.get? j = some q → q.inline_data = none) :
    firstInline ps = some d := by
  induction ps generalizing i with
  | nil => simp at hp
  | cons q rest ih =>
      cases i with
      | zero =>
          simp only [List.get?] at hp
          cases hp
          simp only [firstInline, hd]
      | succ n =>
          have hq : q.inline_data = none := hbefore 0 (Nat.succ_pos n) q rfl
          simp only [firstInline, hq]
          exact ih n hp fun j hj r hr => hbefore (j + 1) (by omega) r hr

/-- C7: `extract_img` returns the image of the first part carrying inline data
(scanning candidates and parts in order), accepting raw bytes and base64 text
alike, and every image it returns is PNG bytes whose colour mode is RGBA. -/
theorem c7_extract_first_inline (resp : Resp) (model : String) (i : Nat) (p : Part)
    (d : BData) (hp : (allParts resp).get? i = some p) (hd : p.inline_data = some d)
    (hbefore : ∀ j, j < i → ∀ q, (allParts resp).get? j = some q → q.inline_data = none) :
    extract_img resp model =
      (match d with
       | .raw b => .ok (to_png (imageOpen b))
       | .b64 s =>
           match b64decodeChars s.data with
           | some b => .ok (to_png (imageOpen b))
           | none => .error .b64Error) ∧
    (∀ r b, extract_img r model = .ok b → pngMode b = some "RGBA") := by
  constructor
  · unfold extract_img
    rw [firstInline_at _ i p d hp hd hbefore]
    cases d <;> rfl
  · intro r b hok
    unfold extract_img at hok
    cases hfi : firstInline (allParts r) with
    | none => rw [hfi] at hok; cases hok
    | some d2 =>
        rw [hfi] at hok
        cases d2 with
        | raw bb =>
            simp only [Except.ok.injEq] at hok
            rw [← hok]
            exact pngMode_to_png _
        | b64 s =>
            cases hdec : b64decodeChars s.data with
            | none => simp only [hdec] at hok; cases hok
            | some bb =>
                simp only [hdec, Except.ok.injEq] at hok
                rw [← hok]
                exact pngMode_to_png _

theorem c7_extract_first_inline_witness :
    (extract_img ⟨[⟨some ⟨[⟨some (.raw [1, 2, 3])⟩]⟩⟩], none⟩ "m" =
      .ok (to_png (imageOpen [1, 2, 3]))) ∧
    (∀ r b, extract_img r "m" = .ok b → pngMode b = some "RGBA") :=
  c7_extract_first_inline ⟨[⟨some ⟨[⟨some (.raw [1, 2, 3])⟩]⟩⟩], none⟩ "m" 0
    ⟨some (.raw [1, 2, 3])⟩ (.raw [1, 2, 3]) rfl rfl
    (fun j hj => absurd hj (Nat.not_lt_zero j))

/-- C4: with layerType "custom", the instruction sent to the remote image model
is exactly the request's customPrompt — no template, no guard clauses, no other
transformation — and the endpoint behaves as if that raw string were sent. -/
theorem c4_custom_prompt_raw (call : RemoteCall) (req : GenLayerReq)
    (h : req.layerType = "custom") :
    gen_layer_prompt req = req.customPrompt ∧
    gen_layer call req =
      (match call req.imageModel (.str req.customPrompt) .imageCfg with
       | .error e => .error ⟨500, e⟩
       | .ok resp =>
           match extract_img resp req.imageModel with
           | .ok b => .ok (bytes_to_b64 b)
           | .error e => .error ⟨500, errText e⟩) := by
  have hp : gen_layer_prompt req = req.customPrompt := by
    unfold gen_layer_prompt
    rw [if_pos h]
  exact ⟨hp, by unfold gen_layer; rw [hp]⟩

theorem c4_custom_prompt_raw_witness :
    gen_layer_prompt ⟨"k", "im", "tm", "custom", "main", "o", "b", "l", "m", "the raw prompt"⟩ =
      "the raw prompt" ∧
    gen_layer (fun _ _ _ => .error "down")
        ⟨"k", "im", "tm", "custom", "main", "o", "b", "l", "m", "the raw prompt"⟩ =
      (match (fun (_ : String) (_ : ReqContents) (_ : GenConfig) =>
          (Except.error "down" : Except String Resp)) "im" (.str "the raw prompt") .imageCfg with
       | .error e => .error ⟨500, e⟩
       | .ok resp =>
           match extract_img resp "im" with
           | .ok b => .ok (bytes_to_b64 b)
           | .error e => .error ⟨500, errText e⟩) :=
  c4_custom_prompt_raw (fun _ _ _ => .error "down")
    ⟨"k", "im", "tm", "custom", "main", "o", "b", "l", "m", "the raw prompt"⟩ rfl

/-- C10: a layerType outside the five documented kinds is not rejected: the
prompt builder falls through every template branch and the raw mainPrompt is
sent unmodified as the instruction text. -/
theorem c10_unknown_kind_sends_main (call : RemoteCall) (req : GenLayerReq)
    (h : req.layerType ∉ ["object", "background", "light", "combo", "custom"]) :
    gen_layer_prompt req = req.mainPrompt ∧
    gen_layer call req =
      (match call req.imageModel (.str req.mainPrompt) .imageCfg with
       | .error e => .error ⟨500, e⟩
       | .ok resp =>
           match extract_img resp req.imageModel with
           | .ok b => .ok (bytes_to_b64 b)
           | .error e => .error ⟨500, errText e⟩) := by
  have h' : ¬ (req.layerType = "object" ∨ req.layerType = "background" ∨
      req.layerType = "light" ∨ req.layerType = "combo" ∨ req.layerType = "custom") := by
    simpa using h
  push_neg at h'
  obtain ⟨h1, h2, h3, h4, h5⟩ := h'
  have hp : gen_layer_prompt req = req.mainPrompt := by
    unfold gen_layer_prompt layer_prompt
    simp [h1, h2, h3, h4, h5]
  exact ⟨hp, by unfold gen_layer; rw [hp]⟩

theorem c10_unknown_kind_sends_main_witness :
    gen_layer_prompt ⟨"k", "im", "tm", "sticker", "scene text", "o", "b", "l", "m", "c"⟩ =
      "scene text" ∧
    gen_layer (fun _ _ _ => .error "down")
        ⟨"k", "im", "tm", "sticker", "scene text", "o", "b", "l", "m", "c"⟩ =
      (match (fun (_ : String) (_ : ReqContents) (_ : GenConfig) =>
          (Except.error "down" : Except String Resp)) "im" (.str "scene text") .imageCfg with
       | .error e => .error ⟨500, e⟩
       | .ok resp =>
           match extract_img resp "im" with
           | .ok b => .ok (bytes_to_b64 b)
           | .error e => .error ⟨500, errText e⟩) :=
  c10_unknown_kind_sends_main (fun _ _ _ => .error "down")
    ⟨"k", "im", "tm", "sticker", "scene text", "o", "b", "l", "m", "c"⟩ (by decide)

/-- C5: for each templated kind the prompt is the fixed template with the
request fields substituted, an empty field being replaced by the documented
default phrase where the template has one (all fields of the object, light and
background templates, and the object/background/lighting fields of the combo
template; the combo template embeds the mood field bare). -/
theorem c5_layer_templates (main obj bg lt mood : String) :
    layer_prompt "object" main obj bg lt mood =
      "Scene: " ++ main ++ "\nMood: " ++ (if mood = "" then "neutral" else mood) ++ "\n" ++
      "Generate ONLY the isolated main subject/object.\n" ++
      "Object: " ++ (if obj = "" then "infer from scene" else obj) ++ "\n" ++
      "Lighting: " ++ (if lt = "" then "neutral studio" else lt) ++ "\n" ++
      "Render on a transparent/checkerboard background (like Photoshop) — no solid color bg." ++
      "\n" ++ "No watermarks, no text overlays, no logos. High quality output." ∧
    layer_prompt "light" main obj bg lt mood =
      "Scene: " ++ main ++ "\nMood: " ++ (if mood = "" then "neutral" else mood) ++ "\n" ++
      "Generate ONLY a lighting/glow/atmosphere effects layer.\n" ++
      "Lighting: " ++ (if lt = "" then "cinematic volumetric light, soft bloom" else lt) ++
      "\n" ++ "Minimal geometry — light effects only.\n" ++
      "Render on a transparent/checkerboard background (like Photoshop) — no solid color bg." ++
      "\n" ++ "No watermarks, no text overlays, no logos. High quality output." ∧
    layer_prompt "background" main obj bg lt mood =
      "Scene: " ++ main ++ "\nMood: " ++ (if mood = "" then "neutral" else mood) ++ "\n" ++
      "Generate ONLY the background environment. No main subject in it.\n" ++
      "Background: " ++ (if bg = "" then "infer fitting background from scene" else bg) ++
      "\n" ++ "Lighting: " ++ (if lt = "" then "match the mood" else lt) ++ "\n" ++
      "No watermarks, no text overlays, no logos. High quality output." ∧
    layer_prompt "combo" main obj bg lt mood =
      "Render the full scene as one unified image:\n" ++
      "Scene: " ++ main ++ "\nMain object: " ++ (if obj = "" then "infer" else obj) ++ "\n" ++
      "Background: " ++ (if bg = "" then "infer" else bg) ++
      "\nLighting: " ++ (if lt = "" then "infer" else lt) ++
      "\nMood: " ++ mood ++ "\n" ++
      "No watermarks, no text overlays, no logos. High quality output." := by
  constructor
  · simp [layer_prompt, orDefault, CHESS_BG, STYLE_GUARD, String.append_assoc]
  constructor
  · simp [layer_prompt, orDefault, CHESS_BG, STYLE_GUARD, String.append_assoc]
  constructor
  · simp [layer_prompt, orDefault, CHESS_BG, STYLE_GUARD, String.append_assoc]
  simp [layer_prompt, orDefault, CHESS_BG, STYLE_GUARD, String.append_assoc]

/-- C8: when the fence-stripped response text does not parse as a JSON object,
`decompose_sync` returns the four attributes as empty strings and does not
fail: the parse failure never propagates. -/
theorem c8_decompose_parse_fallback (loads : JsonLoads) (call : RemoteCall)
    (tm p : String) (resp : Resp)
    (hcall : call tm (.str (decContents p)) (.textTemp 20) = .ok resp)
    (hparse : ∀ fs, loads (stripFences (resp.text.getD "")) ≠ some (.jobj fs)) :
    decompose_sync loads call tm p = .ok ⟨"", "", "", ""⟩ := by
  simp only [decompose_sync, hcall]

theorem c8_decompose_parse_fallback_witness :
    ((fun (_ : String) (_ : ReqContents) (_ : GenConfig) =>
        (Except.ok ⟨[], some "not json at all"⟩ : Except String Resp)) "t"
      (.str (decContents "p")) (.textTemp 20) =
        .ok (⟨[], some "not json at all"⟩ : Resp)) ∧
    decompose_sync (fun _ => none)
      (fun _ _ _ => .ok ⟨[], some "not json at all"⟩) "t" "p" = .ok ⟨"", "", "", ""⟩ :=
  ⟨rfl, c8_decompose_parse_fallback (fun _ => none)
    (fun _ _ _ => .ok ⟨[], some "not json at all"⟩) "t" "p" ⟨[], some "not json at all"⟩
    rfl (fun _fs h => Option.noConfusion h)⟩

theorem gen_allT_trace (loads : JsonLoads) (call : RemoteCall) (req : GenAllReq) :
    (gen_allT loads call req).2 = gen_all_dec_trace req ++
      (match gen_all_dec loads call req with
       | .error _ => []
       | .ok dec => (gen_all_layers call req dec layerKinds).2) := by
  unfold gen_allT
  cases gen_all_dec loads call req with
  | error e => simp
  | ok dec =>
      cases h : gen_all_layers call req dec layerKinds with
      | mk r t => cases r <;> simp [h]

theorem gen_all_layers_trace_shape (call : RemoteCall) (req : GenAllReq) (dec : Dec4)
    (kinds : List String) :
    ∀ x ∈ (gen_all_layers call req dec kinds).2, ∃ kind ∈ kinds,
      x = (req.imageModel, ReqContents.str
        (layer_prompt kind req.mainPrompt dec.object dec.background dec.light dec.mood)) := by
  induction kinds with
  | nil => intro x hx; simp [gen_all_layers] at hx
  | cons k rest ih =>
      intro x hx
      simp only [gen_all_layers] at hx
      cases hc : call req.imageModel
          (.str (layer_prompt k req.mainPrompt dec.object dec.background dec.light dec.mood))
          .imageCfg with
      | error e =>
          rw [hc] at hx
          simp at hx
          exact ⟨k, by simp, hx⟩
      | ok resp =>
          rw [hc] at hx
          cases he : extract_img resp req.imageModel with
          | error ex =>
              simp only [he] at hx
              simp at hx
              exact ⟨k, by simp, hx⟩
          | ok b =>
              simp only [he] at hx
              simp only [List.mem_cons] at hx
              cases hx with
              | inl h => exact ⟨k, by simp, h⟩
              | inr h =>
                  obtain ⟨kind, hk, hval⟩ := ih x h
                  exact ⟨kind, by simp [hk], hval⟩

theorem layer_prompt_ne_decContents (kind main a b c d p : String)
    (hk : kind ∈ layerKinds) : layer_prompt kind main a b c d ≠ decContents p := by
  intro h
  have hD : (decContents p).data.head? = some 'D' := rfl
  rw [← h] at hD
  simp only [layerKinds, List.mem_cons, List.not_mem_nil, or_false] at hk
  rcases hk with hk | hk | hk | hk <;> subst hk
  · have hS : (layer_prompt "object" main a b c d).data.head? = some 'S' := rfl
    rw [hS] at hD
    simp at hD
  · have hS : (layer_prompt "background" main a b c d).data.head? = some 'S' := rfl
    rw [hS] at hD
    simp at hD
  · have hS : (layer_prompt "light" main a b c d).data.head? = some 'S' := rfl
    rw [hS] at hD
    simp at hD
  · have hS : (layer_prompt "combo" main a b c d).data.head? = some 'R' := rfl
    rw [hS] at hD
    simp at hD

/-- C3: `gen_all` invokes the decomposition call iff both objectPrompt and
backgroundPrompt are empty: with both empty, the decomposed attributes come
from `decompose_sync` and the first remote request issued is the decomposition
request on the text model; with either populated, the four supplied sub-prompts
are used directly as the decomposed attributes and no decomposition-shaped
request appears anywhere in the endpoint's remote-request trace. -/
theorem c3_decomposition_condition (loads : JsonLoads) (call : RemoteCall)
    (req : GenAllReq) :
    ((req.objectPrompt = "" ∧ req.backgroundPrompt = "") →
       gen_all_dec loads call req = decompose_sync loads call req.textModel req.mainPrompt ∧
       (gen_allT loads call req).2.head? =
         some (req.textModel, .str (decContents req.mainPrompt))) ∧
    (¬ (req.objectPrompt = "" ∧ req.backgroundPrompt = "") →
       gen_all_dec loads call req =
         .ok ⟨req.objectPrompt, req.backgroundPrompt, req.lightPrompt, req.moodPrompt⟩ ∧
       (∀ s, (req.textModel, ReqContents.str (decContents s)) ∉ (gen_allT loads call req).2)) := by
  constructor
  · intro hboth
    refine ⟨by unfold gen_all_dec; rw [if_pos hboth], ?_⟩
    rw [gen_allT_trace]
    unfold gen_all_dec_trace
    rw [if_pos hboth]
    rfl
  · intro hnot
    have hdec : gen_all_dec loads call req =
        .ok ⟨req.objectPrompt, req.backgroundPrompt, req.lightPrompt, req.moodPrompt⟩ := by
      unfold gen_all_dec
      rw [if_neg hnot]
    refine ⟨hdec, ?_⟩
    intro s hmem
    rw [gen_allT_trace] at hmem
    unfold gen_all_dec_trace at hmem
    rw [if_neg hnot] at hmem
    rw [hdec] at hmem
    simp only [List.nil_append] at hmem
    obtain ⟨kind, hk, hval⟩ := gen_all_layers_trace_shape call req _ layerKinds _ hmem
    have hstr : ReqContents.str (decContents s) = ReqContents.str
        (layer_prompt kind req.mainPrompt req.objectPrompt req.backgroundPrompt
          req.lightPrompt req.moodPrompt) := congrArg Prod.snd hval
    have heq : layer_prompt kind req.mainPrompt req.objectPrompt req.backgroundPrompt
        req.lightPrompt req.moodPrompt = decContents s := by
      injection hstr with h'
      exact h'.symm
    exact layer_prompt_ne_decContents kind req.mainPrompt req.objectPrompt
      req.backgroundPrompt req.lightPrompt req.moodPrompt s hk heq

theorem c3_decomposition_condition_witness :
    gen_all_dec (fun _ => none) (fun _ _ _ => .error "down")
        ⟨"k", "im", "tm", "scene", "", "", "", ""⟩ =
      decompose_sync (fun _ => none) (fun _ _ _ => .error "down") "tm" "scene" ∧
    (gen_allT (fun _ => none) (fun _ _ _ => .error "down")
        ⟨"k", "im", "tm", "scene", "", "", "", ""⟩).2.head? =
      some ("tm", .str (decContents "scene")) :=
  (c3_decomposition_condition (fun _ => none) (fun _ _ _ => .error "down")
    ⟨"k", "im", "tm", "scene", "", "", "", ""⟩).1 ⟨rfl, rfl⟩

/-- The outcome of one layer iteration inside `gen_all`: the remote call on the
kind's prompt followed by image extraction, exactly as `gen_all_layers`
performs it for that kind. -/
def layerResult (call : RemoteCall) (req : GenAllReq) (dec : Dec4) (kind : String) :
    Except HTTPError (List Nat) :=
  match call req.imageModel (.str (layer_prompt kind req.mainPrompt dec.object
      dec.background dec.light dec.mood)) .imageCfg with
  | .error e => .error ⟨500, e⟩
  | .ok resp =>
      match extract_img resp req.imageModel with
      | .ok b => .ok b
      | .error e => .error ⟨500, errText e⟩

theorem gen_all_layers_ok_shape (call : RemoteCall) (req : GenAllReq) (dec : Dec4)
    (kinds : List String) (imgs : List (String × String))
    (h : (gen_all_layers call req dec kinds).1 = .ok imgs) :
    imgs.map Prod.fst = kinds := by
  induction kinds generalizing imgs with
  | nil =>
      simp only [gen_all_layers, Except.ok.injEq] at h
      rw [← h]
      rfl
  | cons k rest ih =>
      simp only [gen_all_layers] at h
      cases hc : call req.imageModel (.str (layer_prompt k req.mainPrompt dec.object
          dec.background dec.light dec.mood)) .imageCfg with
      | error e => rw [hc] at h; simp at h
      | ok resp =>
          rw [hc] at h
          cases he : extract_img resp req.imageModel with
          | error ex => simp only [he] at h; simp at h
          | ok b =>
              simp only [he] at h
              cases hrt : (gen_all_layers call req dec rest).1 with
              | error e2 => rw [hrt] at h; simp [Except.map] at h
              | ok imgs2 =>
                  rw [hrt] at h
                  simp only [Except.map, Except.ok.injEq] at h
                  rw [← h]
                  simp only [List.map_cons]
                  rw [ih imgs2 hrt]

theorem gen_all_layers_err_code (call : RemoteCall) (req : GenAllReq) (dec : Dec4)
    (kinds : List String) (e : HTTPError)
    (h : (gen_all_layers call req dec kinds).1 = .error e) : e.code = 500 := by
  induction kinds generalizing e with
  | nil => simp [gen_all_layers] at h
  | cons k rest ih =>
      simp only [gen_all_layers] at h
      cases hc : call req.imageModel (.str (layer_prompt k req.mainPrompt dec.object
          dec.background dec.light dec.mood)) .imageCfg with
      | error e2 =>
          rw [hc] at h
          simp only [Except.error.injEq] at h
          rw [← h]
      | ok resp =>
          rw [hc] at h
          cases he : extract_img resp req.imageModel with
          | error ex =>
              simp only [he, Except.error.injEq] at h
              rw [← h]
          | ok b =>
              simp only [he] at h
              cases hrt : (gen_all_layers call req dec rest).1 with
              | ok imgs2 => rw [hrt] at h; simp [Except.map] at h
              | error e3 =>
                  rw [hrt] at h
                  simp only [Except.map, Except.error.injEq] at h
                  rw [← h]
                  exact ih e3 hrt

theorem gen_all_layers_fail (call : RemoteCall) (req : GenAllReq) (dec : Dec4)
    (kinds : List String) (k : String) (hk : k ∈ kinds)
    (hfail : ∃ e, layerResult call req dec k = .error e) :
    ∃ e, (gen_all_layers call req dec kinds).1 = .error e := by
  induction kinds with
  | nil => simp at hk
  | cons k0 rest ih =>
      cases hc : call req.imageModel (.str (layer_prompt k0 req.mainPrompt dec.object
          dec.background dec.light dec.mood)) .imageCfg with
      | error e2 => exact ⟨⟨500, e2⟩, by simp [gen_all_layers, hc]⟩
      | ok resp =>
          cases he : extract_img resp req.imageModel with
          | error ex => exact ⟨⟨500, errText ex⟩, by simp [gen_all_layers, hc, he]⟩
          | ok b =>
              rcases List.mem_cons.mp hk with rfl | hkrest
              · obtain ⟨e, hre⟩ := hfail
                have hok : layerResult call req dec k = .ok b := by
                  simp only [layerResult, hc, he]
                rw [hok] at hre
                cases hre
              · obtain ⟨e, hre⟩ := ih hkrest
                refine ⟨e, ?_⟩
                simp only [gen_all_layers, hc, he]
                rw [hre]
                rfl

theorem gen_all_layers_trace_take (call : RemoteCall) (req : GenAllReq) (dec : Dec4)
    (kinds : List String) :
    ∃ n, (gen_all_layers call req dec kinds).2 = (kinds.take n).map fun kind =>
      (req.imageModel, ReqContents.str
        (layer_prompt kind req.mainPrompt dec.object dec.background dec.light dec.mood)) := by
  induction kinds with
  | nil => exact ⟨0, rfl⟩
  | cons k rest ih =>
      cases hc : call req.imageModel (.str (layer_prompt k req.mainPrompt dec.object
          dec.background dec.light dec.mood)) .imageCfg with
      | error e => exact ⟨1, by simp [gen_all_layers, hc]⟩
      | ok resp =>
          cases he : extract_img resp req.imageModel with
          | error ex => exact ⟨1, by simp [gen_all_layers, hc, he]⟩
          | ok b =>
              obtain ⟨n, hn⟩ := ih
              exact ⟨n + 1, by simp [gen_all_layers, hc, he, hn]⟩

/-- C1: the four layers are generated sequentially in the fixed order object,
background, light, combo — the remote requests issued for layers form a prefix
of the four ordered layer requests — a successful call returns exactly the four
layers in that order, and any single layer failure makes the whole call fail
with an HTTP 500 error, carrying no layer results. -/
theorem c1_gen_all_order_and_abort (loads : JsonLoads) (call : RemoteCall)
    (req : GenAllReq) :
    (∀ r, gen_all loads call req = .ok r →
       r.layers.map Prod.fst = ["object", "background", "light", "combo"]) ∧
    (∀ dec, gen_all_dec loads call req = .ok dec →
       (∃ k ∈ layerKinds, ∃ e, layerResult call req dec k = .error e) →
       ∃ e, gen_all loads call req = .error e ∧ e.code = 500) ∧
    (∀ dec, gen_all_dec loads call req = .ok dec →
       ∃ n, (gen_allT loads call req).2 = gen_all_dec_trace req ++
         ((layerKinds.take n).map fun kind => (req.imageModel, ReqContents.str
           (layer_prompt kind req.mainPrompt dec.object dec.background dec.light
             dec.mood)))) := by
  have geq : ∀ dec, gen_all_dec loads call req = .ok dec →
      gen_all loads call req =
        (match (gen_all_layers call req dec layerKinds).1 with
         | .ok layers => .ok ⟨layers, dec⟩
         | .error e => .error e) := by
    intro dec hdec
    unfold gen_all gen_allT
    rw [hdec]
    cases hlay : gen_all_layers call req dec layerKinds with
    | mk r' t => cases r' <;> simp [hlay]
  refine ⟨?_, ?_, ?_⟩
  · intro r h
    cases hdec : gen_all_dec loads call req with
    | error e =>
        unfold gen_all gen_allT at h
        rw [hdec] at h
        cases h
    | ok dec =>
        rw [geq dec hdec] at h
        cases hlay : (gen_all_layers call req dec layerKinds).1 with
        | error e2 => rw [hlay] at h; cases h
        | ok layers =>
            rw [hlay] at h
            simp only [Except.ok.injEq] at h
            rw [← h]
            exact gen_all_layers_ok_shape call req dec layerKinds layers hlay
  · intro dec hdec hfail
    obtain ⟨k, hk, hf⟩ := hfail
    obtain ⟨e, herr⟩ := gen_all_layers_fail call req dec layerKinds k hk hf
    refine ⟨e, ?_, gen_all_layers_err_code call req dec layerKinds e herr⟩
    rw [geq dec hdec, herr]
  · intro dec hdec
    obtain ⟨n, hn⟩ := gen_all_layers_trace_take call req dec layerKinds
    rw [gen_allT_trace, hdec]
    exact ⟨n, by simp only [hn]⟩

theorem c1_gen_all_order_and_abort_witness :
    ∃ e, gen_all (fun _ => none) (fun _ _ _ => .error "down")
      ⟨"k", "im", "tm", "scene", "obj", "", "", ""⟩ = .error e ∧ e.code = 500 :=
  (c1_gen_all_order_and_abort (fun _ => none) (fun _ _ _ => .error "down")
      ⟨"k", "im", "tm", "scene", "obj", "", "", ""⟩).2.1
    ⟨"obj", "", "", ""⟩ rfl
    ⟨"object", by decide, ⟨500, "down"⟩, rfl⟩

theorem gen_all_eq_ok_dec (loads : JsonLoads) (call : RemoteCall) (req : GenAllReq)
    (dec : Dec4) (hdec : gen_all_dec loads call req = .ok dec) :
    gen_all loads call req =
      (match (gen_all_layers call req dec layerKinds).1 with
       | .ok layers => .ok ⟨layers, dec⟩
       | .error e => .error e) := by
  unfold gen_all gen_allT
  rw [hdec]
  cases hlay : gen_all_layers call req dec layerKinds with
  | mk r' t => cases r' <;> simp [hlay]

/-- C9: credential verification falls back to the hardcoded default model pair
(the head of each built-in list) whenever model discovery fails or the
preferred models are absent from the listing; the `connect` endpoint is the
only one surfacing a 400 error (whenever the remote call rejects the key), and
every other remote-calling endpoint surfaces its failures as 500 errors. -/
theorem c9_connect_fallback_and_error_codes :
    (∀ e, detect_models (.error e) = ("gemini-2.5-flash-image", "gemini-2.0-flash")) ∧
    (∀ ms, (∀ m ∈ IMAGE_MODELS, m ∉ listedNames ms) →
       (∀ m ∈ TEXT_MODELS, m ∉ listedNames ms) →
       detect_models (.ok ms) = ("gemini-2.5-flash-image", "gemini-2.0-flash")) ∧
    (∀ (listResult : Except String (List (Option String))) (call : RemoteCall)
       (req : ConnectReq) (e : HTTPError),
       connect listResult call req = .error e → e.code = 400) ∧
    (∀ (call : RemoteCall) (req : GenLayerReq) (e : HTTPError),
       gen_layer call req = .error e → e.code = 500) ∧
    (∀ (loads : JsonLoads) (call : RemoteCall) (req : GenAllReq) (e : HTTPError),
       gen_all loads call req = .error e → e.code = 500) ∧
    (∀ (call : RemoteCall) (req : EditReq) (e : HTTPError),
       edit call req = .error e → e.code = 500) ∧
    (∀ (call : RemoteCall) (req : MergeReq) (e : HTTPError),
       merge call req = .error e → e.code = 500) ∧
    (∀ (call : RemoteCall) (req : ImproveReq) (e : HTTPError),
       improve call req = .error e → e.code = 500) ∧
    (∀ (loads : JsonLoads) (call : RemoteCall) (req : DecomposeReq) (e : HTTPError),
       decompose loads call req = .error e → e.code = 500) := by
  refine ⟨fun e => rfl, ?_, ?_, ?_, ?_, ?_, ?_, ?_, ?_⟩
  · intro ms h1 h2
    simp only [detect_models]
    have hi : IMAGE_MODELS.filter ((listedNames ms).contains ·) = [] := by
      rw [List.filter_eq_nil_iff]
      intro m hm
      simpa using h1 m hm
    have ht : TEXT_MODELS.filter ((listedNames ms).contains ·) = [] := by
      rw [List.filter_eq_nil_iff]
      intro m hm
      simpa using h2 m hm
    rw [hi, ht]
    rfl
  · intro listResult call req e h
    simp only [connect] at h
    split at h
    · cases h
    · injection h with h'
      exact h' ▸ rfl
  · intro call req e h
    unfold gen_layer at h
    repeat' split at h
    all_goals try cases h
    all_goals rfl
  · intro loads call req e h
    cases hdec : gen_all_dec loads call req with
    | error msg =>
        unfold gen_all gen_allT at h
        simp only [hdec] at h
        injection h with h'
        exact h' ▸ rfl
    | ok dec =>
        rw [gen_all_eq_ok_dec loads call req dec hdec] at h
        cases hlay : (gen_all_layers call req dec layerKinds).1 with
        | ok layers => simp only [hlay] at h; cases h
        | error e2 =>
            simp only [hlay] at h
            injection h with h'
            rw [← h']
            exact gen_all_layers_err_code call req dec layerKinds e2 hlay
  · intro call req e h
    unfold edit at h
    repeat' split at h
    all_goals try cases h
    all_goals rfl
  · intro call req e h
    unfold merge at h
    repeat' split at h
    all_goals try cases h
    all_goals rfl
  · intro call req e h
    unfold improve at h
    repeat' split at h
    all_goals try cases h
    all_goals rfl
  · intro loads call req e h
    unfold decompose at h
    repeat' split at h
    all_goals try cases h
    all_goals rfl

theorem c9_connect_fallback_and_error_codes_witness :
    detect_models (.ok []) =
      ("gemini-2.5-flash-image", "gemini-2.0-flash") ∧
    HTTPError.code ⟨400, "bad key"⟩ = 400 :=
  ⟨c9_connect_fallback_and_error_codes.2.1 []
      (by simp [listedNames]) (by simp [listedNames]),
   c9_connect_fallback_and_error_codes.2.2.1 (.error "x")
      (fun _ _ _ => .error "bad key") ⟨"k"⟩ ⟨400, "bad key"⟩ rfl⟩

end SceneStudio
